import Mathlib

/-!
Verification of the data-fetching / chat-state layer of the
`streamlit_app.py` dashboard.

The embedding mirrors the Python source function by function.  JSON
scalar values are modelled by `JValue` (numbers as integers: no claim
under consideration depends on fractional magnitudes, only on whether a
value coerces to a number at all).  Python exceptions are modelled
explicitly: a function that can raise returns an `Except String`
result, or records a `.raised` outcome in its trace.  Calls into
`streamlit` (`st.error`, `st.warning`) are modelled by accumulating the
message text; the HTTP request issued by `requests.get` is modelled by
recording the request URL in the trace (`none` = no request issued).
-/

/-- A JSON scalar as it appears in the upstream payloads: `null`, a
number (modelled as an integer), or a string. -/
inductive JValue where
  | null
  | num (n : Int)
  | str (s : String)
deriving DecidableEq, Repr

/-- Source lines 12-20 (`get_indicator_code`): dictionary lookup with
default `""` for keys outside the fixed five-entry table. -/
def get_indicator_code (var : String) : String :=
  if var = "GDP" then "NY.GDP.MKTP.CD"
  else if var = "Inflation" then "FP.CPI.TOTL.ZG"
  else if var = "Unemployment Rate" then "SL.UEM.TOTL.ZS"
  else if var = "Population" then "SP.POP.TOTL"
  else if var = "GDP per Capita" then "NY.GDP.PCAP.CD"
  else ""

/-- An entry of the country reference database bundled with the
`pycountry` dependency: a display name and its ISO alpha-3 code. -/
structure Country where
  name : String
  alpha_3 : String
deriving DecidableEq, Repr

/-- Modelled from the spec: the bundled country-name reference database
of the external `pycountry` dependency (not part of this repository),
represented by a sample of its entries; the sample is enough for every
concrete input used below. -/
def pycountry_countries : List Country :=
  [⟨"Germany", "DEU"⟩, ⟨"France", "FRA"⟩, ⟨"United States", "USA"⟩,
   ⟨"Japan", "JPN"⟩, ⟨"China", "CHN"⟩, ⟨"United Kingdom", "GBR"⟩,
   ⟨"Brazil", "BRA"⟩, ⟨"India", "IND"⟩, ⟨"Canada", "CAN"⟩,
   ⟨"Australia", "AUS"⟩]

/-- Modelled from the spec: `pycountry.countries.search_fuzzy` (external
dependency, not part of this repository).  Its documented contract:
return the list of matching countries, best match first, and raise
`LookupError` when nothing matches — it never returns an empty list.
The matching itself is simplified to name equality (the spec leaves
the fuzzy scoring policy open); the raising contract is the part every
claim below depends on. -/
def search_fuzzy (query : String) : Except String (List Country) :=
  let results := pycountry_countries.filter (fun c => c.name = query)
  if results.isEmpty then Except.error "LookupError" else Except.ok results

/-- Source lines 22-27 (`get_country_code`): call `search_fuzzy`, and if
the result list is truthy return the first entry's `alpha_3`, else
return `None`.  An exception from `search_fuzzy` propagates (there is no
try/except in the source), hence the `Except` result. -/
def get_country_code (country : String) : Except String (Option String) :=
  match search_fuzzy country with
  | Except.error e => Except.error e
  | Except.ok country_data =>
    match country_data with
    | c :: _ => Except.ok (some c.alpha_3)
    | [] => Except.ok none

/-- Value of a decimal digit character, `none` on anything else. -/
def digit? (c : Char) : Option Nat :=
  if c = '0' then some 0
  else if c = '1' then some 1
  else if c = '2' then some 2
  else if c = '3' then some 3
  else if c = '4' then some 4
  else if c = '5' then some 5
  else if c = '6' then some 6
  else if c = '7' then some 7
  else if c = '8' then some 8
  else if c = '9' then some 9
  else none

/-- Accumulate a decimal numeral, failing on the first non-digit. -/
def parseDigits : List Char → Nat → Option Nat
  | [], acc => some acc
  | c :: cs, acc =>
    match digit? c with
    | some d => parseDigits cs (acc * 10 + d)
    | none => none

/-- Parse a string as an integer numeral (optionally signed), `none`
when the string is not a numeral.  This stands in for the
string-to-number conversions of the Python stack (`pd.to_datetime` on
the year strings of this API, `pd.to_numeric` on numeric strings),
written out so the kernel can evaluate it on literals. -/
def parseIntStr (s : String) : Option Int :=
  match s.data with
  | [] => none
  | '-' :: c :: cs => (parseDigits (c :: cs) 0).map (fun n => -(n : Int))
  | c :: cs => (parseDigits (c :: cs) 0).map (fun n => (n : Int))

/-- Source line 51 (`pd.to_datetime(df['Date'])`), per cell: `null`
becomes `NaT` (modelled `none`), a number or a numeric string becomes a
date (dates in this API are years, modelled as the integer year), and a
non-parseable string raises (pandas default `errors` mode). -/
def to_datetime (j : JValue) : Except String (Option Int) :=
  match j with
  | JValue.null => Except.ok none
  | JValue.num n => Except.ok (some n)
  | JValue.str s =>
    match parseIntStr s with
    | some n => Except.ok (some n)
    | none => Except.error "DateParseError"

/-- Total companion of `to_datetime`: the value it returns whenever it
does not raise. -/
def to_datetime_ok (j : JValue) : Option Int :=
  match j with
  | JValue.null => none
  | JValue.num n => some n
  | JValue.str s => parseIntStr s

/-- True exactly on the cells where `to_datetime` raises: a string that
does not parse as a date. -/
def date_parse_fails (j : JValue) : Bool :=
  match j with
  | JValue.str s => (parseIntStr s).isNone
  | _ => false

/-- Source line 52 (`pd.to_numeric(df['Value'], errors='coerce')`), per
cell: `null` (also modelling an absent field, which pandas turns into
`NaN`) and non-numeric strings coerce to `NaN` (modelled `none`),
numbers and numeric strings to their value. -/
def to_numeric (j : JValue) : Option Int :=
  match j with
  | JValue.null => none
  | JValue.num n => some n
  | JValue.str s => parseIntStr s

/-- Source line 53 (`df.dropna()`) on the two-column frame: keep exactly
the rows where both cells are present. -/
def dropna : List (Option Int × Option Int) → List (Int × Int)
  | [] => []
  | (some d, some v) :: rest => (d, v) :: dropna rest
  | (_, _) :: rest => dropna rest

/-- One record of the statistics payload, restricted to the two fields
the time-series fetcher consumes (`date`, `value`).  A `null` field also
models a record where the key is absent, which pandas fills with `NaN`. -/
structure WBRecord where
  date : JValue
  value : JValue
deriving DecidableEq, Repr

/-- An upstream statistics payload: either the expected two-element
array `[metadata, records]`, or an array of any other length
(`len(data) == 2` is all the source inspects about the shape). -/
inductive WBPayload where
  | pair (meta : JValue) (records : List WBRecord)
  | other (len : Nat)
deriving DecidableEq, Repr

/-- How a fetcher call ends: an uncaught exception, or a returned row
list (the empty list models an empty `DataFrame`). -/
inductive FetchOutcome (ρ : Type) where
  | raised (exn : String)
  | returned (rows : List ρ)
deriving DecidableEq, Repr

/-- Everything observable about one fetcher call: the HTTP request it
issued, if any (`none` = no request reached the network), the
`st.error`/`st.warning` texts it surfaced, and its outcome. -/
structure FetchTrace (ρ : Type) where
  request : Option String
  messages : List String
  outcome : FetchOutcome ρ
deriving DecidableEq, Repr

/-- Apply `to_datetime` down the date column, propagating the first
exception (pandas raises on the first bad cell). -/
def mapDates : List WBRecord → Except String (List (Option Int × JValue))
  | [] => Except.ok []
  | r :: rest =>
    match to_datetime r.date with
    | Except.error e => Except.error e
    | Except.ok d =>
      match mapDates rest with
      | Except.error e => Except.error e
      | Except.ok tl => Except.ok ((d, r.value) :: tl)

/-- Comparison used for `df.sort_values('Date')`: ascending by date. -/
def rowLe (a b : Int × Int) : Bool :=
  decide (a.1 ≤ b.1)

/-- Source lines 29-58 (`fetch_wb_data`): resolve the indicator code
(unchecked) and the country code (an exception from the fuzzy search
propagates; a `None` country code returns an empty frame plus an
`st.error`), then issue the HTTP GET and reshape the payload.  A
two-element payload is projected to the `date`/`value` columns — on an
empty record list the column projection raises `KeyError`, because the
empty `DataFrame` has no columns — then dates are parsed (raising on a
non-parseable string), values coerced, incomplete rows dropped, and the
rows sorted ascending by date.  Any other payload shape surfaces an
`st.error` and returns an empty frame. -/
def fetch_wb_data (var country : String) (start_year end_year : Int)
    (payload : WBPayload) : FetchTrace (Int × Int) :=
  let indicator_code := get_indicator_code var
  match get_country_code country with
  | Except.error e => { request := none, messages := [], outcome := FetchOutcome.raised e }
  | Except.ok none =>
    { request := none,
      messages := ["Country code for " ++ country ++ " not found."],
      outcome := FetchOutcome.returned [] }
  | Except.ok (some country_code) =>
    let url := "http://api.worldbank.org/v2/country/" ++ country_code
      ++ "/indicator/" ++ indicator_code
      ++ "?date=" ++ toString start_year ++ ":" ++ toString end_year
      ++ "&format=json&per_page=1000"
    match payload with
    | WBPayload.pair _meta records =>
      if records.isEmpty then
        { request := some url, messages := [], outcome := FetchOutcome.raised "KeyError" }
      else
        match mapDates records with
        | Except.error e =>
          { request := some url, messages := [], outcome := FetchOutcome.raised e }
        | Except.ok withDates =>
          let rows := dropna (withDates.map (fun p => (p.1, to_numeric p.2)))
          { request := some url, messages := [],
            outcome := FetchOutcome.returned (rows.mergeSort rowLe) }
    | WBPayload.other _len =>
      { request := some url,
        messages := ["No data found for " ++ var ++ " in " ++ country ++ "."],
        outcome := FetchOutcome.returned [] }

/-- The rows the spec expects from a two-element payload: records whose
date is present (and parsed) and whose value coerces to a number,
projected to (Date, Value). -/
def projectValid (records : List WBRecord) : List (Int × Int) :=
  records.filterMap (fun r =>
    match to_datetime_ok r.date, to_numeric r.value with
    | some d, some v => some (d, v)
    | _, _ => none)

/-- One record of the cross-country payload, restricted to the three
fields consumed (`countryiso3code`, `country`, `value`); the `country`
cell is the nested country object, kept opaque as a `JValue`. -/
structure WBGeoRecord where
  countryiso3code : JValue
  country : JValue
  value : JValue
deriving DecidableEq, Repr

/-- Upstream payload of the cross-country fetcher, with the same shape
test (`len(data) == 2`) as the time-series payload. -/
inductive WBGeoPayload where
  | pair (meta : JValue) (records : List WBGeoRecord)
  | other (len : Nat)
deriving DecidableEq, Repr

/-- One row of the cross-country frame after `dropna`: a row survives
exactly when no cell is missing (`null` models a missing cell, which
pandas stores as `NaN`) and the value coerced to a number. -/
def geoRowValid : JValue × JValue × Option Int → Option (JValue × JValue × Int)
  | (JValue.null, _, _) => none
  | (_, JValue.null, _) => none
  | (_, _, none) => none
  | (c, n, some v) => some (c, n, v)

/-- Source lines 60-82 (`fetch_wb_data_geo`): resolve the indicator
code (unchecked), issue the HTTP GET for all countries in one year,
and on a two-element payload project to the three columns (raising
`KeyError` on an empty record list, as the empty frame has no
columns), coerce the value column, and drop incomplete rows; any other
shape surfaces an `st.error` and returns an empty frame. -/
def fetch_wb_data_geo (var : String) (year : Int) (payload : WBGeoPayload) :
    FetchTrace (JValue × JValue × Int) :=
  let indicator_code := get_indicator_code var
  let url := "http://api.worldbank.org/v2/country/all/indicator/" ++ indicator_code
    ++ "?date=" ++ toString year ++ "&format=json&per_page=300"
  match payload with
  | WBGeoPayload.pair _meta records =>
    if records.isEmpty then
      { request := some url, messages := [], outcome := FetchOutcome.raised "KeyError" }
    else
      { request := some url, messages := [],
        outcome := FetchOutcome.returned (records.filterMap (fun r =>
          geoRowValid (r.countryiso3code, r.country, to_numeric r.value))) }
  | WBGeoPayload.other _len =>
    { request := some url,
      messages := ["No data found for " ++ var ++ " in " ++ toString year ++ "."],
      outcome := FetchOutcome.returned [] }

/-- One record of the country-list payload: `none` models a record
without a `name` key, on which the subscript `country['name']` raises
`KeyError`. -/
structure WBCountryRecord where
  name : Option String
deriving DecidableEq, Repr

/-- Upstream payload of the country-list fetcher. -/
inductive WBCountryPayload where
  | pair (meta : JValue) (records : List WBCountryRecord)
  | other (len : Nat)
deriving DecidableEq, Repr

/-- The list comprehension `[country['name'] for country in data[1]]`,
propagating the `KeyError` of a record without a `name` key. -/
def mapNames : List WBCountryRecord → Except String (List String)
  | [] => Except.ok []
  | r :: rest =>
    match r.name with
    | none => Except.error "KeyError"
    | some n =>
      match mapNames rest with
      | Except.error e => Except.error e
      | Except.ok tl => Except.ok (n :: tl)

/-- Source lines 85-95 (`get_country_list`): one HTTP GET; a
two-element payload yields the list of record names, any other shape
surfaces an `st.error` and returns the empty list. -/
def get_country_list (payload : WBCountryPayload) : FetchTrace String :=
  let url := "http://api.worldbank.org/v2/country?format=json&per_page=300"
  match payload with
  | WBCountryPayload.pair _meta records =>
    match mapNames records with
    | Except.error e =>
      { request := some url, messages := [], outcome := FetchOutcome.raised e }
    | Except.ok ns =>
      { request := some url, messages := [], outcome := FetchOutcome.returned ns }
  | WBCountryPayload.other _len =>
    { request := some url, messages := ["Failed to fetch country list."],
      outcome := FetchOutcome.returned [] }

/-- Upstream payload of the exchange-rate fetcher: `rates` is `some`
when the JSON object has a `rates` key (`'rates' in data`), holding the
key/value entries of that mapping in order (`rates.items()`); rate
values stay raw `JValue`s because the source applies no coercion. -/
structure XRPayload where
  rates : Option (List (String × JValue))
deriving DecidableEq, Repr

/-- Source lines 98-111 (`fetch_exchange_rates`): one HTTP GET (the
source defaults `base_currency` to `"USD"`; the model passes it
explicitly); if the payload has a `rates` key, build one (Currency,
Exchange Rate) row per entry of the mapping, verbatim; otherwise
surface an `st.error` and return an empty frame. -/
def fetch_exchange_rates (payload : XRPayload) (base_currency : String) :
    FetchTrace (String × JValue) :=
  let url := "https://api.exchangerate.host/latest?base=" ++ base_currency
  match payload.rates with
  | some rates =>
    { request := some url, messages := [], outcome := FetchOutcome.returned rates }
  | none =>
    { request := some url, messages := ["Failed to fetch exchange rates."],
      outcome := FetchOutcome.returned [] }

/-- Association-list lookup used by the cache model. -/
def cacheLookup {α β : Type} [DecidableEq α] : List (α × β) → α → Option β
  | [], _ => none
  | (k, v) :: rest, a => if k = a then some v else cacheLookup rest a

/-- Modelled from the spec: the `@st.cache` decorator (streamlit, not
part of this repository) memoizes the decorated function per exact
argument tuple for the lifetime of the process.  `st_cache_call f cache a`
returns the result, the updated cache, and whether the decorated body
ran — for the fetchers the body running is what issues the network
request, so `false` means the call was served from the cache without a
request. -/
def st_cache_call {α β : Type} [DecidableEq α] (f : α → β) (cache : List (α × β)) (a : α) :
    β × List (α × β) × Bool :=
  match cacheLookup cache a with
  | some r => (r, cache, false)
  | none => (f a, (a, f a) :: cache, true)

/-- Argument tuple of the time-series fetcher, the cache key of its
`@st.cache` decoration. -/
abbrev WBArgs := String × String × Int × Int

/-- Role of a chat message. -/
inductive Role where
  | user
  | assistant
deriving DecidableEq, Repr

/-- A chat message, as stored in `st.session_state.messages`. -/
structure ChatMessage where
  role : Role
  content : String
deriving DecidableEq, Repr

/-- Source lines 139-142: the transcript a fresh session starts with. -/
def initial_messages : List ChatMessage :=
  [{ role := Role.assistant,
     content := "I am Macroeconomics Copilot, your personal assistant. You can ask me everything about regional macroeconomic outlook around the world." }]

/-- Source line 154: submitting a prompt appends exactly one user
message to the transcript. -/
def chat_submit (messages : List ChatMessage) (prompt : String) : List ChatMessage :=
  messages ++ [{ role := Role.user, content := prompt }]

/-- Source lines 151-179, one script rerun of the chat tab: if
`st.chat_input` returned a prompt, append the user message; then, if
the last message is not from the assistant, call
`chat_copilot.ask(prompt, messages[:-1])` and append exactly one
assistant message holding the full reply text (a streamed reply is
accumulated by `st.write_stream` into one string before the append, so
`ask` here denotes the final text).  On reachable states the transcript
is never empty (the source would raise `IndexError` on `messages[-1]`
otherwise). -/
def chat_rerun (prior : List ChatMessage) (prompt : Option String)
    (ask : Option String → List ChatMessage → String) : List ChatMessage :=
  let messages :=
    match prompt with
    | some p => chat_submit prior p
    | none => prior
  match messages.getLast? with
  | some last =>
    if last.role ≠ Role.assistant then
      messages ++ [{ role := Role.assistant, content := ask prompt messages.dropLast }]
    else messages
  | none => messages

/-- The external chat engine, opaque except for the credential it is
constructed with (`Copilot(key = openai_api_key)`, source line 146). -/
structure Copilot where
  key : String
deriving DecidableEq, Repr

/-- Source lines 144-146 (`load_copilot`): construct the engine with
the provided API key. -/
def load_copilot (openai_api_key : String) : Copilot :=
  { key := openai_api_key }

/-- Per-session chat-engine state: the `chat_copilot` entry of
`st.session_state`, plus a count of how many engine constructions this
session has performed (for stating the once-per-session property). -/
structure CopilotSession where
  chat_copilot : Option Copilot
  constructions : Nat
deriving DecidableEq, Repr

/-- Source lines 148-149, one script rerun: construct and store the
engine only when `"chat_copilot"` is not yet in the session state;
otherwise leave the stored instance untouched. -/
def ensure_copilot (openai_api_key : String) (s : CopilotSession) : CopilotSession :=
  match s.chat_copilot with
  | some _ => s
  | none =>
    { chat_copilot := some (load_copilot openai_api_key),
      constructions := s.constructions + 1 }

/-- Iterate `ensure_copilot` over a number of script reruns (one per
chat turn) within a session. -/
def run_turns (openai_api_key : String) (s : CopilotSession) : Nat → CopilotSession
  | 0 => s
  | n + 1 => run_turns openai_api_key (ensure_copilot openai_api_key s) n

theorem to_datetime_eq_ok (j : JValue) (h : date_parse_fails j = false) :
    to_datetime j = Except.ok (to_datetime_ok j) := by
  cases j with
  | null => rfl
  | num n => rfl
  | str s =>
    cases hn : parseIntStr s with
    | some n => simp [to_datetime, to_datetime_ok, hn]
    | none => simp [date_parse_fails, hn] at h

theorem mapDates_eq_of_parses (records : List WBRecord)
    (h : ∀ r ∈ records, date_parse_fails r.date = false) :
    mapDates records
      = Except.ok (records.map (fun r => (to_datetime_ok r.date, r.value))) := by
  induction records with
  | nil => rfl
  | cons r rest ih =>
    have hr := to_datetime_eq_ok r.date (h r (by simp))
    have htl := ih (fun x hx => h x (List.mem_cons_of_mem _ hx))
    simp [mapDates, hr, htl]

theorem dropna_proj (records : List WBRecord) :
    dropna ((records.map (fun r => (to_datetime_ok r.date, r.value))).map
        (fun p => (p.1, to_numeric p.2)))
      = projectValid records := by
  induction records with
  | nil => rfl
  | cons r rest ih =>
    cases hd : to_datetime_ok r.date <;> cases hv : to_numeric r.value <;>
      simp [projectValid, dropna, hd, hv, List.filterMap_cons] <;>
      simpa [projectValid] using ih

theorem rowLe_trans (a b c : Int × Int) (hab : rowLe a b) (hbc : rowLe b c) :
    rowLe a c := by
  simp only [rowLe, decide_eq_true_eq] at hab hbc ⊢
  omega

theorem rowLe_total (a b : Int × Int) : rowLe a b || rowLe b a := by
  simp only [rowLe, Bool.or_eq_true, decide_eq_true_eq]
  omega

theorem st_cache_call_idem {α β : Type} [DecidableEq α] (f : α → β)
    (cache : List (α × β)) (a : α) :
    (st_cache_call f (st_cache_call f cache a).2.1 a).1
        = (st_cache_call f cache a).1 ∧
    (st_cache_call f (st_cache_call f cache a).2.1 a).2.2 = false := by
  unfold st_cache_call
  cases h : cacheLookup cache a with
  | some r => simp [h]
  | none => simp [h, cacheLookup]

/-- Claim C1 (code bug): the no-exception guarantee fails.  For a
country with no fuzzy match, the time-series fetcher terminates with
the uncaught `LookupError` raised by `pycountry.countries.search_fuzzy`
(the source's `else: return None` branch is unreachable, because the
library raises instead of returning an empty list): no row set is
returned and no error or warning message is surfaced, for every
upstream payload. -/
theorem fetch_unmatched_country_raises (payload : WBPayload) :
    fetch_wb_data "GDP" "Zzgrxq" 2010 2023 payload
      = { request := none, messages := [],
          outcome := FetchOutcome.raised "LookupError" } := rfl

/-- Claim C2 (code bug): the country resolver returns the first fuzzy
match's alpha-3 code when a match exists — for "Germany" it returns
"DEU" — but for an input with no fuzzy match it does not return `None`:
the `LookupError` raised by `search_fuzzy` propagates, leaving the
`None` branch of the source dead. -/
theorem get_country_code_raises_on_no_match :
    get_country_code "Germany" = Except.ok (some "DEU") ∧
    get_country_code "Zzgrxq" = Except.error "LookupError" :=
  ⟨rfl, rfl⟩

/-- Claim C3, counterexample: a failed indicator-name resolution does
not fail fast.  With the unrecognized variable "Exchange Rates" (empty
indicator code) and a resolvable country, the fetcher still issues the
HTTP request — with an empty indicator segment in the URL — contrary to
the claim that no request is issued when either resolution fails. -/
theorem fetch_wb_data_requests_despite_unknown_indicator :
    get_indicator_code "Exchange Rates" = "" ∧
    (fetch_wb_data "Exchange Rates" "Germany" 2010 2023 (WBPayload.other 1)).request
      = some "http://api.worldbank.org/v2/country/DEU/indicator/?date=2010:2023&format=json&per_page=1000" :=
  ⟨rfl, rfl⟩

/-- Claim C3, amended: only the country-name resolution gates the HTTP
request.  If the fuzzy search raises, the exception propagates before
any request is issued (and no error message is surfaced); if the
country resolves, the request is always issued, a failed indicator-name
resolution merely leaving an empty indicator code in the URL. -/
theorem fetch_wb_data_resolution_behaviour (var country : String)
    (sy ey : Int) (payload : WBPayload) :
    (∀ e, search_fuzzy country = Except.error e →
      fetch_wb_data var country sy ey payload
        = { request := none, messages := [],
            outcome := FetchOutcome.raised e }) ∧
    (∀ code, get_country_code country = Except.ok (some code) →
      (fetch_wb_data var country sy ey payload).request
        = some ("http://api.worldbank.org/v2/country/" ++ code
            ++ "/indicator/" ++ get_indicator_code var
            ++ "?date=" ++ toString sy ++ ":" ++ toString ey
            ++ "&format=json&per_page=1000")) := by
  constructor
  · intro e he
    simp [fetch_wb_data, get_country_code, he]
  · intro code hc
    simp only [fetch_wb_data, hc]
    cases payload with
    | pair meta records =>
      cases h : records.isEmpty with
      | true => simp [h]
      | false =>
        cases hm : mapDates records with
        | error e => simp [h, hm]
        | ok ds => simp [h, hm]
    | other len => simp

/-- Witness for the amended C3 theorem at concrete inputs: an
unmatched country propagates the `LookupError` with no request, and an
unrecognized indicator with a resolvable country issues the request. -/
theorem fetch_wb_data_resolution_behaviour_witness :
    fetch_wb_data "GDP" "Qqqzzz" 2020 2021 (WBPayload.other 1)
      = { request := none, messages := [],
          outcome := FetchOutcome.raised "LookupError" } ∧
    (fetch_wb_data "Exchange Rates" "France" 2010 2023 (WBPayload.other 1)).request
      = some ("http://api.worldbank.org/v2/country/" ++ "FRA"
          ++ "/indicator/" ++ get_indicator_code "Exchange Rates"
          ++ "?date=" ++ toString (2010 : Int) ++ ":" ++ toString (2023 : Int)
          ++ "&format=json&per_page=1000") :=
  ⟨(fetch_wb_data_resolution_behaviour "GDP" "Qqqzzz" 2020 2021
      (WBPayload.other 1)).1 "LookupError" rfl,
   (fetch_wb_data_resolution_behaviour "Exchange Rates" "France" 2010 2023
      (WBPayload.other 1)).2 "FRA" rfl⟩

/-- Claim C4, counterexample: a two-element payload with an empty
record list does not yield the (empty) set of valid rows — the column
projection raises `KeyError` on the column-less empty frame. -/
theorem fetch_wb_data_empty_records_raises :
    (fetch_wb_data "GDP" "Germany" 2010 2023 (WBPayload.pair JValue.null [])).outcome
      = FetchOutcome.raised "KeyError" ∧
    (fetch_wb_data "GDP" "Germany" 2010 2023 (WBPayload.pair JValue.null [])).outcome
      ≠ FetchOutcome.returned (projectValid []) :=
  ⟨rfl, by decide⟩

/-- Claim C4, amended: for every two-element payload whose record list
is non-empty and whose date fields all parse (an empty record list
raises `KeyError`, a non-parseable date string raises from the date
conversion), the time-series fetcher returns exactly the records whose
date is present and whose value coerces to a number, projected to
(Date, Value) and sorted ascending by Date — in particular, 3 valid
records plus 1 non-numeric-value record yield exactly the 3 valid rows
in ascending date order (see the witness). -/
theorem fetch_wb_data_rows_valid_sorted (var country : String) (sy ey : Int)
    (meta : JValue) (records : List WBRecord) (code : String)
    (hc : get_country_code country = Except.ok (some code))
    (hne : records ≠ [])
    (hd : ∀ r ∈ records, date_parse_fails r.date = false) :
    ∃ rows, (fetch_wb_data var country sy ey (WBPayload.pair meta records)).outcome
        = FetchOutcome.returned rows ∧
      rows.Perm (projectValid records) ∧
      rows.Pairwise (fun a b => a.1 ≤ b.1) := by
  refine ⟨(projectValid records).mergeSort rowLe, ?_, ?_, ?_⟩
  · have hm := mapDates_eq_of_parses records hd
    have hempty : records.isEmpty = false := by
      cases records with
      | nil => exact absurd rfl hne
      | cons r rs => rfl
    simp only [fetch_wb_data, hc, hempty, hm, Bool.false_eq_true, if_false]
    rw [dropna_proj]
  · exact List.mergeSort_perm _ _
  · have hs := @List.sorted_mergeSort _ rowLe rowLe_trans rowLe_total
      (projectValid records)
    exact hs.imp (fun hab => by simpa [rowLe] using hab)

/-- The concrete two-element payload of the spec's example: three valid
records (out of date order) and one record whose value is not numeric. -/
def c4_records : List WBRecord :=
  [{ date := JValue.str "2012", value := JValue.num 300 },
   { date := JValue.str "2010", value := JValue.num 100 },
   { date := JValue.str "2013", value := JValue.str "not a number" },
   { date := JValue.str "2011", value := JValue.num 200 }]

/-- Witness for the amended C4 theorem: on the 3-valid-plus-1-invalid
payload the fetcher returns a row set that is exactly the 3 valid rows,
sorted ascending by date. -/
theorem fetch_wb_data_rows_valid_sorted_witness :
    get_country_code "Germany" = Except.ok (some "DEU") ∧
    (∃ rows, (fetch_wb_data "GDP" "Germany" 2010 2023
          (WBPayload.pair JValue.null c4_records)).outcome
        = FetchOutcome.returned rows ∧
      rows.Perm (projectValid c4_records) ∧
      rows.Pairwise (fun a b => a.1 ≤ b.1)) ∧
    projectValid c4_records = [(2012, 300), (2010, 100), (2011, 200)] :=
  ⟨rfl,
   fetch_wb_data_rows_valid_sorted "GDP" "Germany" 2010 2023 JValue.null
     c4_records "DEU" rfl (by decide) (by decide),
   rfl⟩

/-- Claim C5 (confirmed): on every prior transcript, submitting a
prompt appends exactly one user message and then exactly one assistant
message holding the engine's reply to (prompt, prior transcript); the
prior transcript survives unchanged as a prefix, the result again ends
with an assistant message (so turns compose without duplicating or
dropping messages), and every rerun, with or without a new prompt,
only ever appends. -/
theorem chat_turn_appends_user_then_assistant (prior : List ChatMessage)
    (p : String) (ask : Option String → List ChatMessage → String) :
    chat_rerun prior (some p) ask
      = prior ++ [{ role := Role.user, content := p },
                  { role := Role.assistant, content := ask (some p) prior }] ∧
    (chat_rerun prior (some p) ask).getLast?.map ChatMessage.role
      = some Role.assistant ∧
    ∀ q : Option String, prior <+: chat_rerun prior q ask := by
  have h1 : chat_rerun prior (some p) ask
      = prior ++ [{ role := Role.user, content := p },
                  { role := Role.assistant, content := ask (some p) prior }] := by
    simp [chat_rerun, chat_submit, List.getLast?_concat, List.dropLast_concat]
  refine ⟨h1, ?_, ?_⟩
  · rw [h1, show prior ++ [{ role := Role.user, content := p },
        { role := Role.assistant, content := ask (some p) prior }]
      = (prior ++ [{ role := Role.user, content := p }])
          ++ [{ role := Role.assistant, content := ask (some p) prior }] by
      simp]
    rw [List.getLast?_concat]
    rfl
  · intro q
    cases q with
    | none =>
      simp only [chat_rerun]
      cases hl : prior.getLast? with
      | none => exact List.prefix_rfl
      | some last =>
        by_cases hr : last.role = Role.assistant
        · simp [hr]
        · simp only [hr, ne_eq, not_false_eq_true, if_true]
          exact List.prefix_append _ _
    | some q₀ =>
      simp only [chat_rerun, chat_submit, List.getLast?_concat]
      simp only [ne_eq, reduceCtorEq, not_false_eq_true, if_true]
      rw [List.append_assoc]
      exact List.prefix_append _ _

/-- Witness for C5 at the spec's example: asking "What is inflation?"
on a fresh session transcript appends the user message and then the
assistant reply, in order. -/
theorem chat_turn_appends_user_then_assistant_witness :
    chat_rerun initial_messages (some "What is inflation?")
        (fun _ _ => "Inflation is a sustained rise in prices.")
      = initial_messages
          ++ [{ role := Role.user, content := "What is inflation?" },
              { role := Role.assistant,
                content := "Inflation is a sustained rise in prices." }] :=
  (chat_turn_appends_user_then_assistant initial_messages "What is inflation?"
    (fun _ _ => "Inflation is a sustained rise in prices.")).1

/-- The time-series fetcher under its `@st.cache` decoration: the
memoization map is keyed by the exact argument tuple; the upstream
payload the network would serve is passed explicitly, and the `Bool`
of the result records whether the decorated body ran (= a network
request was issued). -/
def cached_fetch_wb_data (payload : WBPayload)
    (cache : List (WBArgs × FetchTrace (Int × Int))) (a : WBArgs) :
    FetchTrace (Int × Int) × List (WBArgs × FetchTrace (Int × Int)) × Bool :=
  st_cache_call (fun x => fetch_wb_data x.1 x.2.1 x.2.2.1 x.2.2.2 payload) cache a

/-- Claim C6 (confirmed): calling the cached time-series fetcher twice
with the identical argument tuple returns the identical result, and
the second call does not run the fetch body — no second network
request is issued. -/
theorem fetch_wb_data_cache_idempotent (payload : WBPayload)
    (cache : List (WBArgs × FetchTrace (Int × Int))) (a : WBArgs) :
    (cached_fetch_wb_data payload
        (cached_fetch_wb_data payload cache a).2.1 a).1
      = (cached_fetch_wb_data payload cache a).1 ∧
    (cached_fetch_wb_data payload
        (cached_fetch_wb_data payload cache a).2.1 a).2.2 = false :=
  st_cache_call_idem _ cache a

/-- Claim C7 (confirmed): starting from a session with no stored
engine, any positive number of chat turns leaves the session holding
the one engine instance constructed from the provided API key, with
exactly one construction ever performed — the instance is reused, no
turn constructs a new one. -/
theorem copilot_constructed_once_per_session (openai_api_key : String) (n : Nat) :
    run_turns openai_api_key { chat_copilot := none, constructions := 0 } (n + 1)
      = { chat_copilot := some (load_copilot openai_api_key),
          constructions := 1 } := by
  have hfix : ∀ (m : Nat) (c : Copilot) (k : Nat),
      run_turns openai_api_key { chat_copilot := some c, constructions := k } m
        = { chat_copilot := some c, constructions := k } := by
    intro m
    induction m with
    | zero => intro c k; rfl
    | succ m ih => intro c k; simpa [run_turns, ensure_copilot] using ih c k
  simpa [run_turns, ensure_copilot] using hfix n (load_copilot openai_api_key) 1

/-- Claim C8 (confirmed): the exchange-rate fetcher returns an empty
row set together with a surfaced error exactly when the payload lacks
a `rates` field; when the field is present, it returns the rows built
from the rates mapping with no error message (an empty mapping gives
an empty row set, but no error). -/
theorem fetch_exchange_rates_error_iff_no_rates (payload : XRPayload)
    (base : String) :
    (((fetch_exchange_rates payload base).outcome
          = FetchOutcome.returned ([] : List (String × JValue)) ∧
        (fetch_exchange_rates payload base).messages ≠ [])
      ↔ payload.rates = none) ∧
    (∀ rates, payload.rates = some rates →
      (fetch_exchange_rates payload base).messages = [] ∧
      (fetch_exchange_rates payload base).outcome
        = FetchOutcome.returned rates) := by
  obtain ⟨r⟩ := payload
  cases r with
  | none => simp [fetch_exchange_rates]
  | some rates => simp [fetch_exchange_rates]

/-- Witness for C8: a payload whose `rates` mapping holds one entry
yields that row with no error surfaced. -/
theorem fetch_exchange_rates_error_iff_no_rates_witness :
    (fetch_exchange_rates { rates := some [("EUR", JValue.num 1)] } "USD").messages
      = [] ∧
    (fetch_exchange_rates { rates := some [("EUR", JValue.num 1)] } "USD").outcome
      = FetchOutcome.returned [("EUR", JValue.num 1)] :=
  (fetch_exchange_rates_error_iff_no_rates
    { rates := some [("EUR", JValue.num 1)] } "USD").2 _ rfl

/-- Claim C9 (confirmed): the indicator catalog is the fixed pure
five-entry table — each recognized name resolves to its fixed
non-empty code, and every other string resolves to the empty string. -/
theorem get_indicator_code_fixed_table :
    (get_indicator_code "GDP" = "NY.GDP.MKTP.CD" ∧ "NY.GDP.MKTP.CD" ≠ "") ∧
    (get_indicator_code "Inflation" = "FP.CPI.TOTL.ZG" ∧ "FP.CPI.TOTL.ZG" ≠ "") ∧
    (get_indicator_code "Unemployment Rate" = "SL.UEM.TOTL.ZS"
      ∧ "SL.UEM.TOTL.ZS" ≠ "") ∧
    (get_indicator_code "Population" = "SP.POP.TOTL" ∧ "SP.POP.TOTL" ≠ "") ∧
    (get_indicator_code "GDP per Capita" = "NY.GDP.PCAP.CD"
      ∧ "NY.GDP.PCAP.CD" ≠ "") ∧
    (∀ v, v ≠ "GDP" → v ≠ "Inflation" → v ≠ "Unemployment Rate" →
      v ≠ "Population" → v ≠ "GDP per Capita" → get_indicator_code v = "") := by
  refine ⟨⟨rfl, by decide⟩, ⟨rfl, by decide⟩, ⟨rfl, by decide⟩,
    ⟨rfl, by decide⟩, ⟨rfl, by decide⟩, ?_⟩
  intro v h1 h2 h3 h4 h5
  simp [get_indicator_code, h1, h2, h3, h4, h5]

/-- Witness for C9 at an unrecognized name. -/
theorem get_indicator_code_fixed_table_witness :
    get_indicator_code "Interest Rate" = "" :=
  get_indicator_code_fixed_table.2.2.2.2.2 "Interest Rate"
    (by decide) (by decide) (by decide) (by decide) (by decide)

/-- Claim C10 (confirmed): when the payload has a `rates` mapping the
exchange-rate fetcher returns its entries verbatim, one row per entry —
no coercion, no dropped rows; concretely, a non-numeric rate string and
a null rate pass through unchanged, although `to_numeric` (the coercion
the statistics fetchers apply) would map both to `NaN`. -/
theorem fetch_exchange_rates_rows_verbatim (base : String)
    (rates : List (String × JValue)) :
    (fetch_exchange_rates { rates := some rates } base).outcome
      = FetchOutcome.returned rates ∧
    (fetch_exchange_rates
        { rates := some [("EUR", JValue.str "abc"), ("JPY", JValue.null)] }
        "USD").outcome
      = FetchOutcome.returned [("EUR", JValue.str "abc"), ("JPY", JValue.null)] ∧
    to_numeric (JValue.str "abc") = none ∧
    to_numeric JValue.null = none :=
  ⟨rfl, rfl, rfl, rfl⟩
